import Mathlib

/-!
Verification of the snpguest certificate-chain and attestation verification
engine (`src/verify.rs`) against its design specification.

The Rust source is shallowly embedded: each relevant Rust function becomes an
executable Lean definition over explicit inputs; Rust panics become explicit
`PanicKind` outcomes; `Result`/`anyhow` errors become `Except` or dedicated
error enumerations.  External cryptographic primitives (certificate signature
verification from the `sev` crate, SHA-384 and ECDSA from openssl) are taken
as abstract function parameters, exactly as the spec treats them ("treat as
given").
-/

set_option maxRecDepth 8000

namespace SnpVerify

/-- Decidable equality for `Except`, so concrete runs of the embedded
functions can be settled by `decide`. -/
instance {ε α : Type} [DecidableEq ε] [DecidableEq α] : DecidableEq (Except ε α) := fun
  | .ok a, .ok b =>
    if h : a = b then .isTrue (by rw [h]) else .isFalse (fun hh => h (Except.ok.inj hh))
  | .error a, .error b =>
    if h : a = b then .isTrue (by rw [h]) else .isFalse (fun hh => h (Except.error.inj hh))
  | .ok _, .error _ => .isFalse (fun hh => Except.noConfusion hh)
  | .error _, .ok _ => .isFalse (fun hh => Except.noConfusion hh)

/-! ## ASN.1 extension value decoding: `check_cert_bytes` -/

/-- Rust panics that `check_cert_bytes` and `verify_attestation_tcb` can hit,
one constructor per distinct panic site in `src/verify.rs`. -/
inductive PanicKind where
  /-- an out-of-bounds slice/index access (`ext.value[0]`, `ext.value[1]`, `val[0]`) -/
  | indexOutOfBounds
  /-- `panic!("Invalid octet length encountered!")` -/
  | invalidOctetLength
  /-- `panic!("Invalid size of bytes encountered!")` -/
  | invalidSizeOfBytes
  /-- `panic!("Invalid certificate harward id length encountered!")` -/
  | invalidHwidLength
  /-- `panic!("Invalid type encountered!")` -/
  | invalidType
  /-- `Option::unwrap()` on a `None` value -/
  | unwrapNone
deriving DecidableEq, Repr

/-- Embedding of `check_cert_bytes(ext: &X509Extension, val: &[u8]) -> bool`
(src/verify.rs lines 245-279).  `value` is `ext.value` (the raw extension
value bytes) and `val` is the expected little-endian platform value.
A Rust panic is modelled as `.error p`; a returned boolean as `.ok b`. -/
def check_cert_bytes (value val : List UInt8) : Except PanicKind Bool :=
  match value with
  | [] => .error .indexOutOfBounds
  | t :: rest =>
    if t = 0x02 then
      -- Integer
      match rest with
      | [] => .error .indexOutOfBounds
      | l :: _ =>
        if l ≠ 0x01 ∧ l ≠ 0x02 then .error .invalidOctetLength
        else
          match (t :: rest).getLast? with
          | some byte_value =>
            match val with
            | [] => .error .indexOutOfBounds
            | v0 :: _ => .ok (byte_value == v0)
          | none => .ok false
    else if t = 0x04 then
      -- Octet String
      match rest with
      | [] => .error .indexOutOfBounds
      | l :: _ =>
        if l ≠ 0x40 then .error .invalidOctetLength
        else if ((t :: rest).drop 2).length ≠ 0x40 then .error .invalidSizeOfBytes
        else if val.length ≠ 0x40 then .error .invalidHwidLength
        else .ok (((t :: rest).drop 2) == val)
    else
      -- Legacy and others: old VCEK without x509 DER encoding.
      if (t :: rest).length = 0x40 ∧ val.length = 0x40 then .ok ((t :: rest) == val)
      else .error .invalidType

/-! ## Certificate type resolution: `parse_common_name` -/

/-- `sev::firmware::host::CertType`, restricted to the variants
`parse_common_name` can produce. -/
inductive CertType where
  | ARK
  | ASK
  | VCEK
  | VLEK
  | CRL
deriving DecidableEq, Repr

/-- Does `needle` occur at the start of `hay`?  Helper for the substring test. -/
def listStartsWith : List Char → List Char → Bool
  | _, [] => true
  | [], _ :: _ => false
  | h :: t, n :: nt => h == n && listStartsWith t nt

/-- Does `needle` occur anywhere inside `hay`?  Models Rust `str::contains`. -/
def strContainsAux (needle : List Char) : List Char → Bool
  | [] => listStartsWith [] needle
  | c :: rest => listStartsWith (c :: rest) needle || strContainsAux needle rest

/-- Models Rust `str::contains` on strings. -/
def strContains (hay needle : String) : Bool :=
  strContainsAux needle.toList hay.toList

/-- Models Rust `str::to_lowercase` character-wise (the common-name strings
involved are ASCII, where Unicode and per-character lowering agree). -/
def strToLower (s : String) : String := ⟨s.data.map Char.toLower⟩

/-- Embedding of `parse_common_name(field: &X509Name) -> Result<CertType>`
(src/verify.rs lines 281-300).  `cn` is the certificate subject's first
common-name attribute rendered as a string, `none` when absent. -/
def parse_common_name (cn : Option String) : Except String CertType :=
  match cn with
  | some val =>
    let x := strToLower val
    if strContains x "ark" then .ok .ARK
    else if strContains x "ask" || strContains x "sev" then .ok .ASK
    else if strContains x "vcek" then .ok .VCEK
    else if strContains x "vlek" then .ok .VLEK
    else if strContains x "crl" then .ok .CRL
    else .error "Unknown certificate type encountered!"
  | none => .error "Certificate Subject Common Name is Unknown!"

/-! ## Certificate chain validation: `validate_cc` -/

/-- The part of `std::io::ErrorKind` the chain validator inspects: it only
compares the kind against `ErrorKind::Other`, so a few representative other
kinds suffice. -/
inductive IoErrorKind where
  | other
  | notFound
  | invalidData
  | unsupported
deriving DecidableEq, Repr

/-- An error returned by the `sev` crate's certificate-signature-verification
primitive `(&parent, &child).verify()`; the chain validator looks only at its
`kind()`. -/
structure VerifyError where
  kind : IoErrorKind
deriving DecidableEq, Repr

/-- Which of the three chain checks failed: the ARK self-check, the
ARK-signs-ASK check, or the ASK-signs-VEK check. -/
inductive ChainStep where
  | ark
  | ask
  | vek
deriving DecidableEq, Repr

/-- How `validate_cc` reports a failed check: a semantic signature mismatch
("The AMD ARK is not self-signed!" / "X was not signed by Y!") versus a
structural failure ("Failed to verify ... certificate"). -/
inductive ChainFailure where
  | mismatch (s : ChainStep)
  | structural (s : ChainStep)
deriving DecidableEq, Repr

/-- Embedding of the error classification in each `match e.kind()` arm of
`validate_cc` (src/verify.rs lines 91-99, 111-119, 132-141): `ErrorKind::Other`
becomes the semantic mismatch message, every other kind the structural
"Failed to verify" message. -/
def classify_verify_error (s : ChainStep) (e : VerifyError) : ChainFailure :=
  match e.kind with
  | .other => .mismatch s
  | _ => .structural s

/-- Embedding of the verification phase of `validate_cc` (src/verify.rs lines
85-143) as a function of the three primitive outcomes `(&ark, &ark).verify()`,
`(&ark, &ask).verify()` and `(&ask, &vek).verify()`, in source order. -/
def validate_cc_checks (o1 o2 o3 : Except VerifyError Unit) : Except ChainFailure Unit :=
  match o1 with
  | .error e => .error (classify_verify_error .ark e)
  | .ok _ =>
    match o2 with
    | .error e => .error (classify_verify_error .ask e)
    | .ok _ =>
      match o3 with
      | .error e => .error (classify_verify_error .vek e)
      | .ok _ => .ok ()

/-- Embedding of `validate_cc` after chain loading (src/verify.rs lines
80-143): the three certificates are abstract values and `verify` is the
`sev` crate's pair-verification primitive. -/
def validate_cc {Cert : Type} (verify : Cert → Cert → Except VerifyError Unit)
    (ark ask vek : Cert) : Except ChainFailure Unit :=
  validate_cc_checks (verify ark ark) (verify ark ask) (verify ask vek)

/-! ## Attestation report signature verification: `verify_attestation_signature` -/

/-- Abstract cryptographic primitives consumed by
`verify_attestation_signature`: openssl's SHA-384 over a byte string, and
ECDSA verification of a signature (abstract handle) against a digest under a
public key (abstract handle), which can itself fail as a library error. -/
structure CryptoEnv where
  sha384 : List UInt8 → List UInt8
  ecdsaVerify : Nat → List UInt8 → Nat → Except Unit Bool

/-- Outcome of `verify_attestation_signature`: success, the semantic
"VEK did NOT sign the Attestation Report!" mismatch, the structural
"Failed to verify attestation report signature" library error, or the Rust
panic from slicing `report_bytes[0x0..0x2A0]` when the serialized report is
too short. -/
inductive SigVerifyResult where
  | ok
  | mismatch
  | verifyError
  | panicOutOfRange
deriving DecidableEq, Repr

/-- The length `0x2A0` of the signed prefix of the serialized report. -/
def signedBytesLen : Nat := 0x2A0

/-- Embedding of `verify_attestation_signature` (src/verify.rs lines 205-242)
after public-key and signature extraction: `reportBytes` is the canonical
serialization `att_report.write_bytes` of the report, `arSignature` and
`vekPubkey` are abstract handles for the extracted ECDSA signature and
EC public key. -/
def verify_attestation_signature (env : CryptoEnv) (vekPubkey arSignature : Nat)
    (reportBytes : List UInt8) : SigVerifyResult :=
  if reportBytes.length < signedBytesLen then .panicOutOfRange
  else
    let signed_bytes := reportBytes.take signedBytesLen
    let base_message_digest := env.sha384 signed_bytes
    match env.ecdsaVerify arSignature base_message_digest vekPubkey with
    | .error _ => .verifyError
    | .ok true => .ok
    | .ok false => .mismatch

/-! ## TCB verification: `verify_attestation_tcb` -/

/-- Modelled from the spec: the processor-model identifier (`fetch::ProcType`)
lives in a module of the repository outside the verification source; the spec
names "Turin" as the newest supported platform generation alongside earlier
generations, and the verifier only ever compares the model against Turin. -/
inductive ProcType where
  | milan
  | genoa
  | turin
deriving DecidableEq, Repr

/-- The `reported_tcb` sub-record of the attestation report
(`sev::firmware::guest::TcbVersion`): four mandatory one-byte components and
the optional newest-generation `fmc` component. -/
structure TcbVersion where
  bootloader : UInt8
  tee : UInt8
  snp : UInt8
  microcode : UInt8
  fmc : Option UInt8
deriving DecidableEq, Repr

/-- The fields of `sev::firmware::guest::AttestationReport` consumed by
`verify_attestation_tcb`: the report version (a `u32`, modelled as `Nat`),
the reported TCB and the 64-byte chip id. -/
structure AttReport where
  version : Nat
  reported_tcb : TcbVersion
  chip_id : List UInt8
deriving DecidableEq, Repr

/-- The raw value bytes of the leaf certificate's SNP extensions, keyed by the
six fixed object identifiers of `SnpOid`; `none` when the certificate lacks
the extension. -/
structure Extensions where
  bl : Option (List UInt8)
  tee : Option (List UInt8)
  snp : Option (List UInt8)
  ucode : Option (List UInt8)
  hwid : Option (List UInt8)
  fmc : Option (List UInt8)
deriving DecidableEq, Repr

/-- The typed errors `verify_attestation_tcb` returns, one per
`anyhow::anyhow!` site. -/
inductive TcbError where
  | bootloaderMismatch
  | teeMismatch
  | snpMismatch
  | microcodeMismatch
  | hwidMismatch
  | fmcMismatch
  | unsupportedReportVersion
  | certTypeError
deriving DecidableEq, Repr

/-- Outcome of `verify_attestation_tcb`: success, a typed error, or a Rust
panic. -/
inductive TcbResult where
  | ok
  | err (e : TcbError)
  | panic (p : PanicKind)
deriving DecidableEq, Repr

/-- One `if let Some(cert_x) = extensions.get(..)` block of
`verify_attestation_tcb`: when the extension is absent skip to the rest `k`;
when present run `check_cert_bytes` and fail with `onMismatch` on `false`,
propagating panics. -/
def checkExtStep (extv : Option (List UInt8)) (expected : List UInt8)
    (onMismatch : TcbError) (k : TcbResult) : TcbResult :=
  match extv with
  | none => k
  | some v =>
    match check_cert_bytes v expected with
    | .error p => .panic p
    | .ok false => .err onMismatch
    | .ok true => k

/-- The extension comparisons of `verify_attestation_tcb` before the Turin
block (src/verify.rs lines 319-381): bootloader, TEE, SNP, microcode, and the
chip id (the latter only for a VCEK-classified certificate), in source order,
failing at the first mismatch.  A `u8::to_le_bytes` value is its single byte. -/
def tcb_field_checks (ext : Extensions) (ct : CertType) (r : AttReport) : TcbResult :=
  checkExtStep ext.bl [r.reported_tcb.bootloader] .bootloaderMismatch
    (checkExtStep ext.tee [r.reported_tcb.tee] .teeMismatch
      (checkExtStep ext.snp [r.reported_tcb.snp] .snpMismatch
        (checkExtStep ext.ucode [r.reported_tcb.microcode] .microcodeMismatch
          (if ct = CertType.VCEK then
            checkExtStep ext.hwid r.chip_id .hwidMismatch .ok
          else .ok))))

/-- The Turin block of `verify_attestation_tcb` (src/verify.rs lines 383-402):
reject reports older than version 3, then, when the FMC extension is present,
unwrap `reported_tcb.fmc` (a panic when it is `None`) and compare. -/
def tcb_turin_check (fmcExt : Option (List UInt8)) (version : Nat)
    (fmcVal : Option UInt8) : TcbResult :=
  if version < 3 then .err .unsupportedReportVersion
  else
    match fmcExt with
    | none => .ok
    | some v =>
      match fmcVal with
      | none => .panic .unwrapNone
      | some f =>
        match check_cert_bytes v [f] with
        | .error p => .panic p
        | .ok false => .err .fmcMismatch
        | .ok true => .ok

/-- Embedding of `verify_attestation_tcb` (src/verify.rs lines 302-405) after
DER conversion and extension-map collection: classify the certificate by its
common name, run the pre-Turin field comparisons, then the version-gated Turin
FMC comparison when the processor model is Turin. -/
def verify_attestation_tcb (ext : Extensions) (cn : Option String) (r : AttReport)
    (proc : ProcType) : TcbResult :=
  match parse_common_name cn with
  | .error _ => .err .certTypeError
  | .ok common_name =>
    match tcb_field_checks ext common_name r with
    | .ok =>
      if proc = ProcType.turin then
        tcb_turin_check ext.fmc r.version r.reported_tcb.fmc
      else .ok
    | res => res

/-- `Extensions` with the FMC extension replaced, leaving the rest unchanged. -/
def setExtFmc (e : Extensions) (fe : Option (List UInt8)) : Extensions :=
  { e with fmc := fe }

/-- `AttReport` with the reported FMC value replaced, leaving the rest
unchanged. -/
def setReportFmc (r : AttReport) (fv : Option UInt8) : AttReport :=
  { r with reported_tcb := { r.reported_tcb with fmc := fv } }


/-- A concrete signed prefix used to witness C2: 0x2A0 zero bytes. -/
def c2Target : List UInt8 := List.replicate signedBytesLen 0

/-- A concrete instantiation of the crypto primitives used to witness C2: the
hash is the identity on byte strings (injective) and verification accepts
exactly the digest of `c2Target`. -/
def c2Env : CryptoEnv where
  sha384 := fun m => m
  ecdsaVerify := fun _ d _ => .ok (d == c2Target)

/-! ## Theorems for the claims -/

/-- Claim C1: chain validation performs exactly the three signature checks in
the fixed order ARK-self, ARK-signs-ASK, ASK-signs-VEK; it succeeds iff all
three primitive checks succeed, and it stops and reports at the first failing
check (a later outcome never influences the result once an earlier check has
failed). -/
theorem c1_chain_three_checks {Cert : Type}
    (verify : Cert → Cert → Except VerifyError Unit) (ark ask vek : Cert)
    (o2 o3 : Except VerifyError Unit) (e : VerifyError) :
    validate_cc verify ark ask vek
      = validate_cc_checks (verify ark ark) (verify ark ask) (verify ask vek)
    ∧ (∀ a b c : Except VerifyError Unit,
        validate_cc_checks a b c = .ok () ↔ a = .ok () ∧ b = .ok () ∧ c = .ok ())
    ∧ validate_cc_checks (.error e) o2 o3 = .error (classify_verify_error .ark e)
    ∧ validate_cc_checks (.ok ()) (.error e) o3 = .error (classify_verify_error .ask e)
    ∧ validate_cc_checks (.ok ()) (.ok ()) (.error e) = .error (classify_verify_error .vek e) := by
  refine ⟨rfl, ?_, rfl, rfl, rfl⟩
  intro a b c
  cases a <;> cases b <;> cases c <;> simp [validate_cc_checks]

/-- Claim C4: every failing chain check is classified into exactly one of the
two error kinds: the semantic mismatch when the primitive fails with
`ErrorKind::Other`, the structural kind for any other failure kind; in
particular a chain whose root self-check fails semantically (kind `Other`,
the primitive's encoding of "not actually self-signed") yields the
root-mismatch failure and never the structural one. -/
theorem c4_error_classification (s : ChainStep) (e : VerifyError)
    (o2 o3 : Except VerifyError Unit) :
    (classify_verify_error s e = .mismatch s ↔ e.kind = .other)
    ∧ (classify_verify_error s e = .structural s ↔ e.kind ≠ .other)
    ∧ (validate_cc_checks (.error e) o2 o3 = .error (.mismatch .ark) ↔ e.kind = .other)
    ∧ (validate_cc_checks (.error e) o2 o3 = .error (.structural .ark) ↔ e.kind ≠ .other) := by
  obtain ⟨k⟩ := e
  cases k <;> simp [classify_verify_error, validate_cc_checks]

/-- Claim C3 (divergence witness): the certificate-type resolver maps the
common name "SEV-VCEK" — the actual subject common name of a VCEK leaf
certificate, also used by the repository's own test fixtures — to the
intermediate-signer role `ASK`, because the arm matching "ask"/"sev" precedes
the arm matching "vcek"; the claim requires the VCEK role. -/
theorem c3_sev_vcek_resolves_to_ask :
    parse_common_name (some "SEV-VCEK") = .ok .ASK ∧ .ASK ≠ CertType.VCEK := by
  exact ⟨by decide, by decide⟩

/-- Claim C10: in the INTEGER branch with a two-byte encoded integer
`[0x02, 0x02, hi, lo]`, `check_cert_bytes` compares only the final byte `lo`
with `expected[0]`; the higher-order byte `hi` never influences the result. -/
theorem c10_integer_high_byte_ignored (hi hi' lo v0 : UInt8) :
    check_cert_bytes [0x02, 0x02, hi, lo] [v0] = .ok (lo == v0)
    ∧ check_cert_bytes [0x02, 0x02, hi, lo] [v0]
        = check_cert_bytes [0x02, 0x02, hi', lo] [v0] := by
  exact ⟨rfl, rfl⟩


/-- Claim C5: in the INTEGER branch (tag `0x02`), a length byte other than 1
or 2 aborts with the invariant-violation panic rather than returning false;
otherwise the result is true iff the extension value's last byte equals the
first byte of `expected`.  In particular a 1-byte INTEGER encoding of `v`
compared against `[v]` yields true, and against any other single byte false. -/
theorem c5_integer_decode (l : UInt8) (rest val : List UInt8) (v w : UInt8) :
    ((l ≠ 1 ∧ l ≠ 2) →
      check_cert_bytes (0x02 :: l :: rest) val = .error .invalidOctetLength)
    ∧ ((l = 1 ∨ l = 2) → ∀ b v0 vrest, (0x02 :: l :: rest).getLast? = some b →
        val = v0 :: vrest →
        check_cert_bytes (0x02 :: l :: rest) val = .ok (b == v0))
    ∧ check_cert_bytes [0x02, 0x01, v] [v] = .ok true
    ∧ (w ≠ v → check_cert_bytes [0x02, 0x01, v] [w] = .ok false) := by
  refine ⟨?_, ?_, ?_, ?_⟩
  · intro h
    simp [check_cert_bytes, h]
  · intro hl b v0 vrest hb hval
    subst hval
    have h2 : ¬(l ≠ 1 ∧ l ≠ 2) := by
      rcases hl with h | h <;> simp [h]
    simp [check_cert_bytes, h2, hb]
  · have : check_cert_bytes [0x02, 0x01, v] [v] = .ok (v == v) := rfl
    simp [this]
  · intro h
    have : check_cert_bytes [0x02, 0x01, v] [w] = .ok (v == w) := rfl
    simp [this]
    exact fun hh => h hh.symm

/-- Concrete witness for C5: length byte 3 aborts; a 1-byte INTEGER encoding
of 7 compares true against `[7]` and false against `[9]`. -/
theorem c5_integer_decode_witness :
    check_cert_bytes [0x02, 0x03, 0x07] [0x05] = .error .invalidOctetLength
    ∧ check_cert_bytes [0x02, 0x01, 0x07] [0x07] = .ok true
    ∧ check_cert_bytes [0x02, 0x01, 0x07] [0x09] = .ok false := by
  refine ⟨(c5_integer_decode 3 [0x07] [0x05] 7 9).1 (by decide), ?_, ?_⟩
  · have h := (c5_integer_decode 1 [0x07] [0x07] 7 9).2.1 (Or.inl rfl) 0x07 0x07 []
      (by decide) rfl
    simpa using h
  · exact (c5_integer_decode 1 [0x07] [0x09] 7 9).2.2.2 (by decide)

/-- Claim C6: in the OCTET STRING branch (tag `0x04`), the result is true iff
the 64 bytes after the two-byte header equal the 64-byte expected value;
a length byte other than `0x40`, a body that is not exactly 64 bytes, or an
expected value that is not exactly 64 bytes each abort with an
invariant-violation panic and never return false. -/
theorem c6_octet_decode (l : UInt8) (body val : List UInt8) :
    (l ≠ 0x40 → check_cert_bytes (0x04 :: l :: body) val = .error .invalidOctetLength)
    ∧ (l = 0x40 → body.length ≠ 64 →
        check_cert_bytes (0x04 :: l :: body) val = .error .invalidSizeOfBytes)
    ∧ (l = 0x40 → body.length = 64 → val.length ≠ 64 →
        check_cert_bytes (0x04 :: l :: body) val = .error .invalidHwidLength)
    ∧ (l = 0x40 → body.length = 64 → val.length = 64 →
        check_cert_bytes (0x04 :: l :: body) val = .ok (body == val)) := by
  refine ⟨?_, ?_, ?_, ?_⟩
  · intro h
    simp [check_cert_bytes, h]
  · intro hl hb
    subst hl
    simp [check_cert_bytes, hb]
  · intro hl hb hv
    subst hl
    simp [check_cert_bytes, hb, hv]
  · intro hl hb hv
    subst hl
    simp [check_cert_bytes, hb, hv]

/-- Concrete witness for C6: a well-formed 64-byte OCTET STRING extension
compares true against its own body and aborts on each malformed shape. -/
theorem c6_octet_decode_witness :
    check_cert_bytes (0x04 :: 0x40 :: List.replicate 64 0) (List.replicate 64 0) = .ok true
    ∧ check_cert_bytes (0x04 :: 0x41 :: List.replicate 64 0) (List.replicate 64 0)
        = .error .invalidOctetLength
    ∧ check_cert_bytes (0x04 :: 0x40 :: List.replicate 63 0) (List.replicate 64 0)
        = .error .invalidSizeOfBytes
    ∧ check_cert_bytes (0x04 :: 0x40 :: List.replicate 64 0) (List.replicate 63 0)
        = .error .invalidHwidLength := by
  refine ⟨?_, ?_, ?_, ?_⟩
  · have h := (c6_octet_decode 0x40 (List.replicate 64 0) (List.replicate 64 0)).2.2.2
      rfl (by simp) (by simp)
    simpa using h
  · exact (c6_octet_decode 0x41 (List.replicate 64 0) (List.replicate 64 0)).1 (by decide)
  · exact (c6_octet_decode 0x40 (List.replicate 63 0) (List.replicate 64 0)).2.1
      rfl (by simp)
  · exact (c6_octet_decode 0x40 (List.replicate 64 0) (List.replicate 63 0)).2.2.1
      rfl (by simp) (by simp)

/-- Claim C9: `check_cert_bytes` indexes without length guards: an empty
extension value, a one-byte value `[0x02]` or `[0x04]` (so `ext.value[1]`
does not exist), and — in the INTEGER branch — an empty `expected` slice each
panic with an out-of-bounds access rather than returning false or a
classified invariant violation. -/
theorem c9_oob_panics (val : List UInt8) (l : UInt8) (rest : List UInt8) :
    check_cert_bytes [] val = .error .indexOutOfBounds
    ∧ check_cert_bytes [0x02] val = .error .indexOutOfBounds
    ∧ check_cert_bytes [0x04] val = .error .indexOutOfBounds
    ∧ ((l = 1 ∨ l = 2) →
        check_cert_bytes (0x02 :: l :: rest) [] = .error .indexOutOfBounds) := by
  refine ⟨rfl, rfl, rfl, ?_⟩
  intro hl
  have h2 : ¬(l ≠ 1 ∧ l ≠ 2) := by
    rcases hl with h | h <;> simp [h]
  obtain ⟨b, hb⟩ : ∃ b, (0x02 :: l :: rest).getLast? = some b := by
    cases h : (0x02 :: l :: rest).getLast? with
    | none => simp [List.getLast?_eq_none_iff] at h
    | some b => exact ⟨b, rfl⟩
  simp [check_cert_bytes, h2, hb]

/-- Concrete witness for C9: all four out-of-bounds panic shapes at concrete
inputs. -/
theorem c9_oob_panics_witness :
    check_cert_bytes [] [0x05] = .error .indexOutOfBounds
    ∧ check_cert_bytes [0x02] [0x05] = .error .indexOutOfBounds
    ∧ check_cert_bytes [0x04] [0x05] = .error .indexOutOfBounds
    ∧ check_cert_bytes [0x02, 0x01] [] = .error .indexOutOfBounds := by
  have h := c9_oob_panics [0x05] 1 []
  exact ⟨h.1, h.2.1, h.2.2.1, h.2.2.2 (by decide)⟩


/-- Claim C7: with processor model Turin and a report version below 3, TCB
verification (its earlier field checks passing) fails with
`unsupportedReportVersion`, and the FMC comparison is never attempted: the
result is this same error for every FMC extension value and every reported
FMC field value. -/
theorem c7_turin_version_gate (ext : Extensions) (cn : Option String) (r : AttReport)
    (ct : CertType) (fe : Option (List UInt8)) (fv : Option UInt8)
    (hct : parse_common_name cn = .ok ct)
    (hpre : tcb_field_checks ext ct r = .ok)
    (h3 : r.version < 3) :
    verify_attestation_tcb (setExtFmc ext fe) cn (setReportFmc r fv) .turin
      = .err .unsupportedReportVersion := by
  have hpre' : tcb_field_checks (setExtFmc ext fe) ct (setReportFmc r fv) = .ok := hpre
  simp only [verify_attestation_tcb, hct]
  rw [hpre']
  simp [tcb_turin_check, setReportFmc, h3]

/-- Concrete witness for C7: an extension-free certificate classified as ARK,
a version-2 report, processor model Turin: the result is the unsupported
report version error even with an FMC extension present. -/
theorem c7_turin_version_gate_witness :
    verify_attestation_tcb
      (setExtFmc ⟨none, none, none, none, none, none⟩ (some [0x02, 0x01, 0x07]))
      (some "ark") (setReportFmc ⟨2, ⟨0, 0, 0, 0, none⟩, []⟩ none) .turin
      = .err .unsupportedReportVersion :=
  c7_turin_version_gate ⟨none, none, none, none, none, none⟩ (some "ark")
    ⟨2, ⟨0, 0, 0, 0, none⟩, []⟩ .ARK (some [0x02, 0x01, 0x07]) none
    (by decide) (by decide) (by decide)

/-- Claim C8: with processor model Turin, a report version of at least 3 and
the FMC extension present in the certificate, TCB verification unconditionally
unwraps `reported_tcb.fmc`: when that field is `None` the process panics
instead of returning a typed error. -/
theorem c8_fmc_unwrap_panics (ext : Extensions) (cn : Option String) (r : AttReport)
    (ct : CertType) (v : List UInt8)
    (hct : parse_common_name cn = .ok ct)
    (hpre : tcb_field_checks ext ct r = .ok)
    (h3 : ¬ r.version < 3)
    (hfe : ext.fmc = some v)
    (hfv : r.reported_tcb.fmc = none) :
    verify_attestation_tcb ext cn r .turin = .panic .unwrapNone := by
  simp [verify_attestation_tcb, hct, hpre, tcb_turin_check, h3, hfe, hfv]

/-- Concrete witness for C8: a certificate carrying only the FMC extension,
a version-3 report whose `fmc` field is absent, processor model Turin: the
verification panics on the unwrap. -/
theorem c8_fmc_unwrap_panics_witness :
    verify_attestation_tcb ⟨none, none, none, none, none, some [0x02, 0x01, 0x07]⟩
      (some "ark") ⟨3, ⟨0, 0, 0, 0, none⟩, []⟩ .turin = .panic .unwrapNone :=
  c8_fmc_unwrap_panics ⟨none, none, none, none, none, some [0x02, 0x01, 0x07]⟩
    (some "ark") ⟨3, ⟨0, 0, 0, 0, none⟩, []⟩ .ARK [0x02, 0x01, 0x07]
    (by decide) (by decide) (by decide) rfl rfl


/-- Claim C2: attestation signature verification hashes exactly the bytes
`[0, 0x2A0)` of the serialized report with SHA-384 and accepts iff the
extracted ECDSA signature verifies against that digest under the leaf
certificate's public key.  Bytes at offsets at or beyond `0x2A0` never
influence the result, and — under the standard idealization of the
primitives (verification never errors for this key, accepts only the
original digest, and the hash is injective on signed prefixes) — flipping
any single byte inside `[0, 0x2A0)` makes verification fail as a signature
mismatch. -/
theorem c2_signature_verification (env : CryptoEnv) (pk sig : Nat) (b : List UInt8) :
    (verify_attestation_signature env pk sig b = .ok ↔
      signedBytesLen ≤ b.length ∧
        env.ecdsaVerify sig (env.sha384 (b.take signedBytesLen)) pk = .ok true)
    ∧ (∀ b2, b.take signedBytesLen = b2.take signedBytesLen →
        verify_attestation_signature env pk sig b
          = verify_attestation_signature env pk sig b2)
    ∧ (∀ i c, i < signedBytesLen → signedBytesLen ≤ b.length →
        c ≠ b.getD i 0 →
        (∀ d, env.ecdsaVerify sig d pk ≠ .error ()) →
        (∀ d, env.ecdsaVerify sig d pk = .ok true →
          d = env.sha384 (b.take signedBytesLen)) →
        (∀ m1 m2, m1.length = signedBytesLen → m2.length = signedBytesLen →
          env.sha384 m1 = env.sha384 m2 → m1 = m2) →
        verify_attestation_signature env pk sig (b.set i c) = .mismatch) := by
  refine ⟨?_, ?_, ?_⟩
  · by_cases hlen : b.length < signedBytesLen
    · simp [verify_attestation_signature, hlen, Nat.not_le.mpr hlen]
    · rcases hv : env.ecdsaVerify sig (env.sha384 (b.take signedBytesLen)) pk with e | bb
      · simp [verify_attestation_signature, hlen, hv]
      · cases bb <;> simp [verify_attestation_signature, hlen, hv, Nat.not_lt.mp hlen]
  · intro b2 htake
    have hll : min signedBytesLen b.length = min signedBytesLen b2.length := by
      rw [← List.length_take, htake, List.length_take]
    by_cases h1 : b.length < signedBytesLen
    · have hmin1 : min signedBytesLen b.length = b.length := by omega
      have h2 : b2.length < signedBytesLen := by omega
      have hb : b = b2 := by
        calc b = b.take signedBytesLen := (List.take_of_length_le (by omega)).symm
          _ = b2.take signedBytesLen := htake
          _ = b2 := List.take_of_length_le (by omega)
      rw [hb]
    · have h2 : ¬ b2.length < signedBytesLen := by omega
      simp only [verify_attestation_signature, if_neg h1, if_neg h2, htake]
  · intro i c hi hlen hc hnoerr huniq hinj
    have hlen' : ¬ (b.set i c).length < signedBytesLen := by
      rw [List.length_set]; omega
    rcases hv : env.ecdsaVerify sig (env.sha384 ((b.set i c).take signedBytesLen)) pk
      with e | bb
    · exact absurd (by cases e; exact hv) (hnoerr _)
    · cases bb
      · simp only [verify_attestation_signature, if_neg hlen', hv]
      · exfalso
        have hd := huniq _ hv
        have heq : (b.set i c).take signedBytesLen = b.take signedBytesLen := by
          refine hinj _ _ ?_ ?_ hd
          · rw [List.length_take, List.length_set]; omega
          · rw [List.length_take]; omega
        have hib : i < b.length := by omega
        have hi1 : i < ((b.set i c).take signedBytesLen).length := by
          rw [List.length_take, List.length_set]; omega
        have hi2 : i < (b.take signedBytesLen).length := by
          rw [List.length_take]; omega
        have hgi := List.getElem_of_eq heq hi1
        rw [List.getElem_take, List.getElem_take, List.getElem_set_self] at hgi
        exact hc (by rw [hgi, List.getD_eq_getElem b 0 hib])

/-- Concrete witness for C2: flipping byte 0 of the signed prefix makes
verification fail as a signature mismatch. -/
theorem c2_signature_verification_witness :
    verify_attestation_signature c2Env 0 0 (c2Target.set 0 1) = .mismatch := by
  refine (c2_signature_verification c2Env 0 0 c2Target).2.2 0 1
    (by decide) (by simp [c2Target]) (by decide) ?_ ?_ ?_
  · intro d h
    simp [c2Env] at h
  · intro d h
    have hb : (d == c2Target) = true := by simpa [c2Env] using h
    have hd : d = c2Target := eq_of_beq hb
    rw [hd]
    show c2Target = c2Target.take signedBytesLen
    exact (List.take_of_length_le (by simp [c2Target])).symm
  · exact fun m1 m2 _ _ h => h

end SnpVerify
